import Mathlib

/-!
# Verification of the axiscore backend against its specification

Shallow embedding of the parts of the `axiscore` repository that the
checked claims concern:

* `src/backend/archive_utils.py` — the archive-extraction cascade
  (`extract_archive`, `try_python_extraction`), the 3D-model classifier
  (`find_3d_model_files`).
* `src/backend/app.py` — model persistence (`save_model_to_storage`),
  model retrieval (`serve_model`, `get_content_type_from_extension`,
  `extract_uuid_from_text`), and base64 round-tripping of stored content.
* the webhook circuit-breaker guard (exercised by
  `tests/test_emergency_commands.py`).

External effects (subprocess invocations of archive tools, Python archive
libraries, SQL statement outcomes) are modelled by explicit environment
records: each environment field records the outcome the external world
would produce for the corresponding call, and the embedded functions
reproduce the Python control flow over those outcomes.

The file is organized as definitions first, then the theorems.
-/

namespace Axiscore

/-! ## Definitions: archive extraction (`src/backend/archive_utils.py`)

A command-line backend invocation (`subprocess.run` of `7z`, `unzip`,
`unrar-free`, `unrar`) either raises (`CalledProcessError`,
`FileNotFoundError`, or the manually raised `unrar command failed` for a
nonzero return code) — modelled as `Except.error` carrying the exception
text — or succeeds having deposited a set of files (relative paths) in
the extraction directory, modelled as `Except.ok`.  A Python-library
extraction (`try_python_extraction`) swallows its own exceptions and
reports only a boolean, so it is modelled as an `Option`. -/

/-- Outcomes of the external extraction backends for one `extract_archive`
call.  Each field is the result the corresponding backend would produce
if invoked: `Except.error msg` models a raised exception with text `msg`,
`Except.ok files` / `some files` models a successful run that leaves
`files` (relative paths) in the extraction directory. -/
structure ExtractEnv where
  /-- whether the Python archive libraries imported (`PYTHON_ARCHIVE_AVAILABLE`) -/
  pythonAvailable : Bool
  /-- `subprocess.run(['7z', 'x', file_path, '-o...'])` -/
  run7z : Except String (List String)
  /-- `subprocess.run(['unzip', file_path, '-d', extract_path])` -/
  runUnzip : Except String (List String)
  /-- `subprocess.run(['unrar-free', 'x', file_path, extract_path])` -/
  runUnrarFree : Except String (List String)
  /-- `subprocess.run(['unrar', 'x', '-y', ...], check=False)` plus the manual
  return-code check -/
  runUnrar : Except String (List String)
  /-- `rarfile.RarFile(...).extractall` inside `try_python_extraction` -/
  pyRar : Option (List String)
  /-- `zipfile.ZipFile(...).extractall` inside `try_python_extraction` -/
  pyZip : Option (List String)
  /-- `py7zr.SevenZipFile(...).extractall` inside `try_python_extraction` -/
  py7z : Option (List String)
  /-- `patoolib.extract_archive` in the generic fallback (raises with a message) -/
  pyPatool : Except String (List String)

/-- `USE_COMMAND_LINE_TOOLS = True` (archive_utils.py line 9). -/
def USE_COMMAND_LINE_TOOLS : Bool := true

/-- The result dictionary of `extract_archive`:
`{'success': …, 'extract_path': …, 'error': …, 'files': …}`.
`hasExtractPath` records whether `extract_path` is non-`None`. -/
structure ExtractResult where
  success : Bool
  hasExtractPath : Bool
  error : Option String
  files : List String
deriving DecidableEq, Repr

/-- `try_python_extraction(file_path, extract_path, result, archive_type)`:
returns `none` when it returns `False` (library unavailable or the library
raised), `some files` when it returns `True` having extracted `files`. -/
def try_python_extraction (env : ExtractEnv) (archiveType : String) :
    Option (List String) :=
  if !env.pythonAvailable then none
  else if archiveType = "rar" then env.pyRar
  else if archiveType = "zip" then env.pyZip
  else if archiveType = "7z" then env.py7z
  else match env.pyPatool with
    | .ok fs => some fs
    | .error _ => none

/-- The `.rar` branch of `extract_archive` under `USE_COMMAND_LINE_TOOLS`:
`7z`, then `unrar-free`, then `unrar`, then the Python `rarfile` fallback.
`Except.error` is the exception that escapes to the outer handler. -/
def rarCascade (env : ExtractEnv) : Except String (List String) :=
  match env.run7z with
  | .ok fs => .ok fs
  | .error _ =>
    match env.runUnrarFree with
    | .ok fs => .ok fs
    | .error _ =>
      match env.runUnrar with
      | .ok fs => .ok fs
      | .error _ =>
        if env.pythonAvailable then
          match try_python_extraction env "rar" with
          | some fs => .ok fs
          | none => .error "All RAR extraction methods failed"
        else
          .error "Failed to extract RAR file, both command-line and Python methods unavailable"

/-- The `.zip` branch: `unzip`, then `7z`, then the Python `zipfile` fallback. -/
def zipCascade (env : ExtractEnv) : Except String (List String) :=
  match env.runUnzip with
  | .ok fs => .ok fs
  | .error _ =>
    match env.run7z with
    | .ok fs => .ok fs
    | .error _ =>
      if env.pythonAvailable then
        match try_python_extraction env "zip" with
        | some fs => .ok fs
        | none => .error "All ZIP extraction methods failed"
      else
        .error "Failed to extract ZIP file, both command-line and Python methods unavailable"

/-- The `.7z` branch: the `7z` command, then the Python `py7zr` fallback. -/
def sevenZCascade (env : ExtractEnv) : Except String (List String) :=
  match env.run7z with
  | .ok fs => .ok fs
  | .error _ =>
    if env.pythonAvailable then
      match try_python_extraction env "7z" with
      | some fs => .ok fs
      | none => .error "All 7z extraction methods failed"
    else
      .error "Failed to extract 7z file, both command-line and Python methods unavailable"

/-- The generic fallback for unrecognized extensions (archive_utils.py
lines 197–220): `7z`, then `patoolib`. -/
def genericFallback (env : ExtractEnv) : Except String (List String) :=
  match env.run7z with
  | .ok fs => .ok fs
  | .error _ =>
    if env.pythonAvailable then
      match env.pyPatool with
      | .ok fs => .ok fs
      | .error e => .error ("All extraction methods failed: " ++ e)
    else
      .error "All extraction methods failed, and Python fallbacks not available"

/-- Intermediate outcome of `extract_archive` before the final
file-listing check (archive_utils.py lines 222–231):
* `earlyReturn` — the `return result` inside the
  `not USE_COMMAND_LINE_TOOLS and PYTHON_ARCHIVE_AVAILABLE` branches,
  which bypasses the listing check (`result['files']` still `[]`);
* `raised msg` — an exception reached the outer `except` handler;
* `finished ok fs` — control reached the final check with
  `result['success'] = ok` and `fs` the files the winning backend left in
  the extraction directory (`ok = false` only on the no-branch path where
  no backend ran and no exception was raised). -/
inductive ExtractPhase
  | earlyReturn
  | raised (msg : String)
  | finished (ok : Bool) (fs : List String)
deriving DecidableEq, Repr

/-- One format branch of `extract_archive`: the optional Python-first
early return, then the command-line cascade (or the raise when
command-line tools are disabled). -/
def formatBranch (env : ExtractEnv) (cascade : Except String (List String))
    (pyType : String) (disabledMsg : String) : ExtractPhase :=
  let early : Option (List String) :=
    if !USE_COMMAND_LINE_TOOLS && env.pythonAvailable then
      try_python_extraction env pyType
    else none
  match early with
  | some _ => .earlyReturn
  | none =>
    if USE_COMMAND_LINE_TOOLS then
      match cascade with
      | .ok fs => .finished true fs
      | .error m => .raised m
    else .raised disabledMsg

/-- The branch-selection part of `extract_archive` (lines 55–220). -/
def extractPhase1 (env : ExtractEnv) (fileExt : String) : ExtractPhase :=
  if fileExt = ".rar" then
    formatBranch env (rarCascade env) "rar"
      "Python-based RAR extraction failed and command-line tools are disabled"
  else if fileExt = ".zip" then
    formatBranch env (zipCascade env) "zip"
      "Python-based ZIP extraction failed and command-line tools are disabled"
  else if fileExt = ".7z" then
    formatBranch env (sevenZCascade env) "7z"
      "Python-based 7z extraction failed and command-line tools are disabled"
  else
    -- no format branch taken; `result['success']` is still False, so the
    -- generic 7z/patool fallback runs (when command-line tools are enabled)
    if USE_COMMAND_LINE_TOOLS then
      match genericFallback env with
      | .ok fs => .finished true fs
      | .error m => .raised m
    else .finished false []

/-- `extract_archive(file_path)` as a function of the backend environment
and the lower-cased file extension.  After the cascade, a reported
success with an empty listing is downgraded to failure (lines 222–231);
an escaped exception sets the error text and removes the extraction
directory (lines 233–242). -/
def extract_archive (env : ExtractEnv) (fileExt : String) : ExtractResult :=
  match extractPhase1 env fileExt with
  | .earlyReturn => { success := true, hasExtractPath := true, error := none, files := [] }
  | .raised m => { success := false, hasExtractPath := false, error := some m, files := [] }
  | .finished false _ => { success := false, hasExtractPath := true, error := none, files := [] }
  | .finished true fs =>
    if fs.isEmpty then
      { success := false, hasExtractPath := true
        error := some "Extraction appeared to succeed but no files were found", files := [] }
    else
      { success := true, hasExtractPath := true, error := none, files := fs }

/-- Forget an exception's message, keeping only success/failure with the
extracted files, for stating order-of-attempts properties. -/
def outcomeToOption : Except String (List String) → Option (List String)
  | .ok fs => some fs
  | .error _ => none

/-- The fixed priority order of backend attempts for a given extension
(the order in which `extract_archive` tries them, with
`USE_COMMAND_LINE_TOOLS` enabled). -/
def attemptOrder (env : ExtractEnv) (fileExt : String) : List (Option (List String)) :=
  if fileExt = ".rar" then
    [outcomeToOption env.run7z, outcomeToOption env.runUnrarFree,
      outcomeToOption env.runUnrar] ++
      (if env.pythonAvailable then [env.pyRar] else [])
  else if fileExt = ".zip" then
    [outcomeToOption env.runUnzip, outcomeToOption env.run7z] ++
      (if env.pythonAvailable then [env.pyZip] else [])
  else if fileExt = ".7z" then
    [outcomeToOption env.run7z] ++
      (if env.pythonAvailable then [env.py7z] else [])
  else
    [outcomeToOption env.run7z] ++
      (if env.pythonAvailable then [outcomeToOption env.pyPatool] else [])

/-- First successful attempt in a priority list, regardless of how many
files it produced. -/
def firstSome : List (Option (List String)) → Option (List String)
  | [] => none
  | some fs :: _ => some fs
  | none :: rest => firstSome rest

/-- The cascade `extract_archive` runs for a given extension. -/
def cascadeFor (env : ExtractEnv) (fileExt : String) : Except String (List String) :=
  if fileExt = ".rar" then rarCascade env
  else if fileExt = ".zip" then zipCascade env
  else if fileExt = ".7z" then sevenZCascade env
  else genericFallback env

/-- The extraction procedure as the claim words it, for comparison with
`extract_archive`: attempt the backends in priority order and stop at the
first one that both reports success and yields a non-empty listing, skipping
backends that succeed with zero files.  (This definition follows the claim's
words, not the code.) -/
def extract_archive_claimed (env : ExtractEnv) (fileExt : String) : ExtractResult :=
  match firstNonemptySome (attemptOrder env fileExt) with
  | some fs => { success := true, hasExtractPath := true, error := none, files := fs }
  | none => { success := false, hasExtractPath := true, error := none, files := [] }
where
  firstNonemptySome : List (Option (List String)) → Option (List String)
    | [] => none
    | some fs :: rest => if fs.isEmpty then firstNonemptySome rest else some fs
    | none :: rest => firstNonemptySome rest

/-- An environment in which the first backend tried for a `.rar` file (`7z`)
reports success but extracts zero files, while the next backend
(`unrar-free`) would succeed with a non-empty listing. -/
def envC1 : ExtractEnv :=
  { pythonAvailable := false
    run7z := .ok []
    runUnzip := .error "unzip failed"
    runUnrarFree := .ok ["model.glb"]
    runUnrar := .error "unrar failed"
    pyRar := none, pyZip := none, py7z := none
    pyPatool := .error "patool failed" }

/-- An environment in which every backend raises, each with its own distinct
error text. -/
def envC4 : ExtractEnv :=
  { pythonAvailable := true
    run7z := .error "7z exploded"
    runUnzip := .error "unzip exploded"
    runUnrarFree := .error "unrar-free exploded"
    runUnrar := .error "unrar exploded"
    pyRar := none, pyZip := none, py7z := none
    pyPatool := .error "patool exploded" }

/-- Whether `needle` occurs as a contiguous subsequence of `hay`. -/
def containsSeq (needle : List Char) : List Char → Bool
  | [] => needle.isEmpty
  | c :: rest => needle.isPrefixOf (c :: rest) || containsSeq needle rest

/-- Substring containment on strings (used for SQL `LIKE '%…%'` matching and
Python's `in` operator on strings). -/
def strContains (hay needle : String) : Bool :=
  containsSeq needle.toList hay.toList

/-! ## Definitions: the 3D-model classifier (`find_3d_model_files`)

`find_3d_model_files` is pure: it only inspects each path string
(`Path(file_path).suffix.lower()`, `os.path.basename`), performing no I/O. -/

/-- `os.path.basename` / the final path component used by `pathlib`. -/
def pyBasename (p : String) : String :=
  (p.splitOn "/").getLastD p

/-- `pathlib.Path(p).suffix`: the extension of the final component,
including the dot; empty when the final component has no dot, starts with
its only dot, or ends with the dot. -/
def pySuffix (p : String) : String :=
  let name := (pyBasename p).toList
  match name.reverse.findIdx? (· == '.') with
  | none => ""
  | some j =>
    let n := name.length
    let i := n - 1 - j
    if 0 < i ∧ i < n - 1 then String.mk (name.drop i) else ""

/-- `model_extensions = ['.glb', '.gltf', '.fbx', '.obj']`
(archive_utils.py line 357). -/
def model_extensions : List String := [".glb", ".gltf", ".fbx", ".obj"]

/-- One entry of the list returned by `find_3d_model_files`:
`{'path': …, 'extension': …, 'filename': …}`. -/
structure ModelFileInfo where
  path : String
  extension : String
  filename : String
deriving DecidableEq, Repr

/-- `find_3d_model_files(file_list)` (archive_utils.py lines 347–371). -/
def find_3d_model_files : List String → List ModelFileInfo
  | [] => []
  | filePath :: rest =>
    let ext := (pySuffix filePath).toLower
    if model_extensions.contains ext then
      { path := filePath, extension := ext, filename := pyBasename filePath } ::
        find_3d_model_files rest
    else
      find_3d_model_files rest

/-! ## Definitions: base64 (Python `base64.b64encode` / `b64decode`)

Stored model content is the base64 text of the uploaded bytes
(`download_telegram_file`), decoded again in `serve_model`.  Bytes are
`Nat` values `< 256`.  `b64decode` mirrors `binascii`'s behaviour of
discarding non-alphabet characters before decoding and rejecting inputs
whose (filtered) length is not a multiple of four or whose padding is
misplaced. -/

def b64Alphabet : List Char :=
  "ABCDEFGHIJKLMNOPQRSTUVWXYZabcdefghijklmnopqrstuvwxyz0123456789+/".toList

/-- The character for a sextet value. -/
def sextetChar (n : Nat) : Char := b64Alphabet.getD n 'A'

/-- The sextet value of an alphabet character (`none` for non-alphabet). -/
def charSextet (c : Char) : Option Nat := b64Alphabet.findIdx? (· == c)

def b64ValidChar (c : Char) : Bool := (charSextet c).isSome || c == '='

/-- `base64.b64encode`, three input bytes at a time, with `=` padding. -/
def b64EncodeList : List Nat → List Char
  | [] => []
  | [a] => [sextetChar (a / 4), sextetChar (a % 4 * 16), '=', '=']
  | [a, b] => [sextetChar (a / 4), sextetChar (a % 4 * 16 + b / 16),
      sextetChar (b % 16 * 4), '=']
  | a :: b :: c :: rest =>
    sextetChar (a / 4) :: sextetChar (a % 4 * 16 + b / 16) ::
      sextetChar (b % 16 * 4 + c / 64) :: sextetChar (c % 64) :: b64EncodeList rest

def b64encode (bytes : List Nat) : String := String.mk (b64EncodeList bytes)

/-- Decode groups of four base64 characters: `=` padding may close the final
group only. -/
def b64DecodeGroups : List Char → Option (List Nat)
  | [] => some []
  | c0 :: c1 :: c2 :: c3 :: rest => do
    let s0 ← charSextet c0
    let s1 ← charSextet c1
    if c2 == '=' then
      if c3 == '=' && rest.isEmpty then some [s0 * 4 + s1 / 16] else none
    else do
      let s2 ← charSextet c2
      if c3 == '=' then
        if rest.isEmpty then some [s0 * 4 + s1 / 16, s1 % 16 * 16 + s2 / 4] else none
      else do
        let s3 ← charSextet c3
        let tail ← b64DecodeGroups rest
        some ((s0 * 4 + s1 / 16) :: (s1 % 16 * 16 + s2 / 4) :: (s2 % 4 * 64 + s3) :: tail)
  | _ => none

/-- `base64.b64decode` on the stored text. -/
def b64decode (s : String) : Option (List Nat) :=
  b64DecodeGroups (s.toList.filter b64ValidChar)

/-! ## Definitions: UUID extraction (`extract_uuid_from_text`, app.py 68–74)

The regex `[0-9a-f]{8}-[0-9a-f]{4}-[0-9a-f]{4}-[0-9a-f]{4}-[0-9a-f]{12}`
searched leftmost-first. -/

def isLowerHexDigit (c : Char) : Bool := c.isDigit || ('a' ≤ c && c ≤ 'f')

/-- Consume exactly `n` lowercase hex digits, returning the remainder. -/
def hexRun : Nat → List Char → Option (List Char)
  | 0, rest => some rest
  | _ + 1, [] => none
  | n + 1, c :: rest => if isLowerHexDigit c then hexRun n rest else none

/-- Whether the UUID pattern matches at the start of `cs`. -/
def uuidAt (cs : List Char) : Bool :=
  match hexRun 8 cs with
  | some ('-' :: r1) =>
    match hexRun 4 r1 with
    | some ('-' :: r2) =>
      match hexRun 4 r2 with
      | some ('-' :: r3) =>
        match hexRun 4 r3 with
        | some ('-' :: r4) => (hexRun 12 r4).isSome
        | _ => false
      | _ => false
    | _ => false
  | _ => false

/-- Leftmost match of the UUID pattern (36 characters). -/
def findUuidSub : List Char → Option (List Char)
  | [] => none
  | c :: rest =>
    if uuidAt (c :: rest) then some ((c :: rest).take 36) else findUuidSub rest

/-- `extract_uuid_from_text(text)`. -/
def extract_uuid_from_text (text : String) : Option String :=
  if text = "" then none
  else (findUuidSub text.toList).map String.mk

/-- A string that is exactly one canonical (lowercase) UUID, as produced by
`str(uuid.uuid4())`. -/
def isUuid (s : String) : Bool := uuidAt s.toList && s.toList.length == 36

/-! ## Definitions: model storage (`save_model_to_storage`, app.py 1575–1742)

The database is modelled as the two tables the function writes (the
`created_at` timestamp columns are never read back and are omitted).  The
outcome of each `INSERT` is supplied by a `SaveEnv` environment; all
statements run inside the `BEGIN` … `COMMIT` transaction, so successful
inserts take effect only on commit and an escaped exception rolls
everything back (`conn.rollback()`), leaving the database unchanged. -/

/-- A row of the `models` table: `telegram_id`, `model_name`, `model_url`,
optional inline `content`, optional `content_size`. -/
structure ModelsRow where
  telegram_id : String
  model_name : String
  model_url : String
  content : Option String
  content_size : Option Nat
deriving DecidableEq, Repr

/-- The two tables touched by model storage and retrieval.
`large_model_content` rows are `(model_id, content)` in insertion order. -/
structure DB where
  models : List ModelsRow
  large_model_content : List (String × String)
deriving DecidableEq, Repr

/-- `BASE_URL = os.getenv('BASE_URL', 'http://localhost:5000')` — the
default value. -/
def BASE_URL : String := "http://localhost:5000"

/-- The `file_data` dictionary passed to `save_model_to_storage`
(`none` models an absent key). -/
structure FileData where
  filename : Option String
  name : Option String
  content : String
  size : Option Nat
  mime_type : Option String
  telegram_id : Option String
deriving DecidableEq, Repr

/-- Outcome of an `INSERT INTO models` statement: success, a
`psycopg2.Error` whose text contains both `column` and `does not exist`
(the schema-drift case the code retries), or any other exception. -/
inductive InsertOutcome
  | ok
  | columnMissing
  | otherError
deriving DecidableEq, Repr

/-- Environment of one `save_model_to_storage` call: the generated
`str(uuid.uuid4())` and the outcome of each write statement.
`largeInsertOk = false` models the `INSERT INTO large_model_content`
raising (the exception is caught and suppressed, app.py 1672–1674);
`modelsRetryOk = false` models the reduced-column retry insert raising. -/
structure SaveEnv where
  model_id : String
  largeInsertOk : Bool
  modelsInsert : InsertOutcome
  modelsRetryOk : Bool
deriving DecidableEq, Repr

/-- Filename resolution (app.py 1594–1608): the original filename, or a
name synthesized from the MIME type when absent or without a dot. -/
def resolvedFilename (fd : FileData) : String :=
  let original := fd.filename.getD (fd.name.getD "")
  if original = "" || !strContains original "." then
    if strContains (fd.mime_type.getD "").toLower "fbx" then "model.fbx"
    else "model.glb"
  else original

/-- `telegram_id` resolution with the hard-coded fallback (app.py
1654–1657). -/
def resolvedTelegramId (fd : FileData) : String :=
  match fd.telegram_id with
  | none => "591646476"
  | some t => if t = "" || t = "unknown" then "591646476" else t

/-- `content_size = file_data.get('size', len(file_data['content']))`. -/
def contentSize (fd : FileData) : Nat := fd.size.getD fd.content.length

/-- `save_model_to_storage(file_data)`: returns the locator path (or `none`
on failure) together with the database state after the call. -/
def save_model_to_storage (db : DB) (env : SaveEnv) (fd : FileData) :
    Option String × DB :=
  if fd.content = "" then (none, db)
  else
    let model_id := env.model_id
    let filename := resolvedFilename fd
    let content_size := contentSize fd
    let telegram_id := resolvedTelegramId fd
    let model_path := "/models/" ++ model_id ++ "/" ++ filename
    let model_url := BASE_URL ++ model_path
    -- Always store content in large_model_content table for backup; a raised
    -- exception here is caught and suppressed ("Continue anyway").
    let largeRows :=
      if env.largeInsertOk then db.large_model_content ++ [(model_id, fd.content)]
      else db.large_model_content
    let mkRow : Option String → Option Nat → ModelsRow := fun c s =>
      { telegram_id := telegram_id, model_name := filename, model_url := model_url
        content := c, content_size := s }
    -- models-table insert: metadata only above 1 MiB, inline content
    -- otherwise; on a column-missing error, retry with fewer columns.
    let inserted : Option ModelsRow :=
      if content_size > 1024 * 1024 then
        match env.modelsInsert with
        | .ok => some (mkRow none (some content_size))
        | .columnMissing => if env.modelsRetryOk then some (mkRow none none) else none
        | .otherError => none
      else
        match env.modelsInsert with
        | .ok => some (mkRow (some fd.content) (some content_size))
        | .columnMissing =>
          if env.modelsRetryOk then some (mkRow (some fd.content) none) else none
        | .otherError => none
    match inserted with
    | some row =>
      -- COMMIT: both buffered inserts take effect
      (some model_path,
        { models := db.models ++ [row], large_model_content := largeRows })
    | none =>
      -- an exception escaped the insert sequence: conn.rollback(); return None
      (none, db)

/-- The public URL generated for a saved model
(`model_url = f"{BASE_URL}/models/{model_id}/{filename}"`). -/
def savedUrl (env : SaveEnv) (fd : FileData) : String :=
  BASE_URL ++ "/models/" ++ env.model_id ++ "/" ++ resolvedFilename fd

/-- The `models` row committed by a fault-free `save_model_to_storage` run:
inline content and size below or at the 1 MiB threshold, metadata only
above it. -/
def savedRow (env : SaveEnv) (fd : FileData) : ModelsRow :=
  { telegram_id := resolvedTelegramId fd
    model_name := resolvedFilename fd
    model_url := savedUrl env fd
    content := if 1024 * 1024 < contentSize fd then none else some fd.content
    content_size := some (contentSize fd) }

/-- The database committed by a fault-free `save_model_to_storage` run. -/
def savedDB (db : DB) (env : SaveEnv) (fd : FileData) : DB :=
  { models := db.models ++ [savedRow env fd]
    large_model_content := db.large_model_content ++ [(env.model_id, fd.content)] }

/-! ## Definitions: model retrieval (`serve_model`, app.py 796–927) -/

/-- The outcome of `serve_model`: the 404 JSON (its message depends on
whether a `models` row matched), the 500 decode-error JSON, or the decoded
bytes with their content type. -/
inductive ServeResult
  | notFound (foundModel : Bool)
  | decodeError
  | ok (content : List Nat) (contentType : String)
deriving DecidableEq, Repr

/-- `get_content_type_from_extension(file_extension)` (app.py 56–66). -/
def get_content_type_from_extension (file_extension : String) : String :=
  if file_extension.toLower.endsWith ".glb" then "model/gltf-binary"
  else if file_extension.toLower.endsWith ".gltf" then "model/gltf+json"
  else if file_extension.toLower.endsWith ".fbx" then "application/octet-stream"
  else if file_extension.toLower.endsWith ".obj" then "text/plain"
  else "application/octet-stream"

/-- STEP 1 of `serve_model`: the first `models` row whose `model_url`
contains the request's `model_id` as a substring
(`WHERE model_url LIKE %model_id%`). -/
def urlMatch (db : DB) (model_id : String) : Option ModelsRow :=
  db.models.find? (fun r => strContains r.model_url model_id)

/-- The UUID `serve_model` settles on: extracted from the `model_id`
fragment, else from the URL of the row STEP 1 found. -/
def servedUuid (db : DB) (model_id : String) : Option String :=
  match extract_uuid_from_text model_id with
  | some u => some u
  | none =>
    match urlMatch db model_id with
    | some r => extract_uuid_from_text r.model_url
    | none => none

/-- STEPs 2–3 of `serve_model`: the located stored content.  With a UUID at
hand, look it up in `large_model_content` (empty content counts as absent);
with no UUID, fall back to scanning the first 50 side-table rows for any
non-empty content. -/
def locatedContent (db : DB) (model_id : String) : Option String :=
  match servedUuid db model_id with
  | some u =>
    match db.large_model_content.find? (fun p => p.1 == u) with
    | some p => if p.2 == "" then none else some p.2
    | none => none
  | none =>
    ((db.large_model_content.take 50).find? (fun p => p.2 != "")).map (fun p => p.2)

/-- `serve_model(model_id, filename)` (the connected-database path). -/
def serve_model (db : DB) (model_id filename : String) : ServeResult :=
  match locatedContent db model_id with
  | none => .notFound (urlMatch db model_id).isSome
  | some c =>
    match b64decode c with
    | none => .decodeError
    | some bytes => .ok bytes (get_content_type_from_extension filename)

/-- Retrieval through the side-table path: the content stored under a
`model_id` key in `large_model_content`. -/
def sideLookup (db : DB) (u : String) : Option String :=
  (db.large_model_content.find? (fun p => p.1 == u)).map (fun p => p.2)

/-- Retrieval through the primary-table inline path: the `content` column of
the `models` row with the given URL (`none` when no row matches, `some c`
with the row's content column otherwise). -/
def inlineLookupByUrl (db : DB) (url : String) : Option (Option String) :=
  (db.models.find? (fun r => r.model_url == url)).map (fun r => r.content)

/-- The same database with every inline `content` column blanked out. -/
def eraseInlineContent (db : DB) : DB :=
  { db with models := db.models.map (fun r => { r with content := none }) }

/-! ## Definitions: the webhook circuit-breaker guard

Modelled from the spec: the circuit-breaker handling of the webhook
dispatcher (the global `IGNORE_ALL_ARCHIVES` flag, the `/911`, `/disable`
and `/enable` operator commands, and the rejection of file-bearing events
while the flag is on) is exercised by
`src/backend/tests/test_emergency_commands.py` but the corresponding
branches are absent from `src/backend/app.py`; the model below follows the
spec (§4.4, §8) and the fixed notification texts asserted by those tests. -/

/-- The cross-request mutable state of the webhook dispatcher. -/
structure BotState where
  ignoreAllArchives : Bool
  processingFiles : List String
  lastResetTime : Nat
deriving DecidableEq, Repr

/-- An inbound webhook event: a file-bearing message or a text command. -/
inductive TgEvent
  | fileEvent (fileId : String)
  | command (text : String)
deriving DecidableEq, Repr

/-- Observable effects of handling one webhook event. -/
inductive WebhookEffect
  | downloadCall (fileId : String)
  | storageCall
  | notify (msg : String)
deriving DecidableEq, Repr

/-- Modelled from the spec: one step of the webhook dispatcher under the
circuit breaker.  A file-bearing event is rejected with a fixed
notification while the flag is on; `/911` and `/disable` set the flag,
`/enable` clears it. -/
def webhookStep (s : BotState) (now : Nat) (e : TgEvent) :
    BotState × List WebhookEffect :=
  match e with
  | .fileEvent fileId =>
    if s.ignoreAllArchives then
      (s, [.notify "Processing is currently disabled (circuit breaker active)."])
    else
      ({ s with processingFiles := s.processingFiles ++ [fileId] },
        [.downloadCall fileId, .storageCall])
  | .command text =>
    if text = "/911" then
      ({ ignoreAllArchives := true, processingFiles := [], lastResetTime := now },
        [.notify "Emergency stop executed"])
    else if text = "/disable" then
      ({ s with ignoreAllArchives := true },
        [.notify "Processing has been disabled (circuit breaker active)."])
    else if text = "/enable" then
      ({ s with ignoreAllArchives := false },
        [.notify "Processing has been re-enabled."])
    else (s, [])

/-! ## Definitions: concrete instances used as witnesses and counterexamples -/

/-- The empty database. -/
def dbEmpty : DB := { models := [], large_model_content := [] }

/-- A fault-free save environment with a fresh UUID. -/
def envHappy : SaveEnv :=
  { model_id := "aaaaaaaa-bbbb-4ccc-8ddd-eeeeffff0000"
    largeInsertOk := true, modelsInsert := .ok, modelsRetryOk := true }

/-- A save environment whose `large_model_content` insert raises. -/
def envLargeFails : SaveEnv :=
  { model_id := "aaaaaaaa-bbbb-4ccc-8ddd-eeeeffff0000"
    largeInsertOk := false, modelsInsert := .ok, modelsRetryOk := true }

/-- A save environment whose `models` insert raises a non-column error. -/
def envModelsFails : SaveEnv :=
  { model_id := "aaaaaaaa-bbbb-4ccc-8ddd-eeeeffff0000"
    largeInsertOk := true, modelsInsert := .otherError, modelsRetryOk := true }

/-- A small upload: the base64 text of the bytes `A` `B` `C`. -/
def fdSmall : FileData :=
  { filename := some "m.glb", name := none, content := b64encode [65, 66, 67]
    size := none, mime_type := none, telegram_id := some "42" }

/-- An upload whose declared size exceeds 1 MiB. -/
def fdBig : FileData :=
  { filename := some "big.glb", name := none, content := b64encode [65, 66, 67]
    size := some 2097152, mime_type := none, telegram_id := some "42" }

/-- A database whose side table holds one entry and whose models table is
empty. -/
def dbSide : DB :=
  { models := [], large_model_content := [("u1", b64encode [65, 66, 67])] }

/-- A bot state with the circuit breaker engaged. -/
def botOn : BotState :=
  { ignoreAllArchives := true, processingFiles := [], lastResetTime := 0 }

/-! ## Theorems: archive extraction -/

theorem rarCascade_eq_firstSome (env : ExtractEnv) :
    outcomeToOption (rarCascade env) = firstSome (attemptOrder env ".rar") := by
  simp only [rarCascade, attemptOrder, try_python_extraction, if_pos rfl]
  cases env.run7z <;> cases env.runUnrarFree <;> cases env.runUnrar <;>
    rcases hpy : env.pythonAvailable <;>
      simp [outcomeToOption, firstSome, hpy] <;>
    cases env.pyRar <;> simp [outcomeToOption, firstSome]

theorem zipCascade_eq_firstSome (env : ExtractEnv) :
    outcomeToOption (zipCascade env) = firstSome (attemptOrder env ".zip") := by
  simp only [zipCascade, attemptOrder, try_python_extraction]
  norm_num
  cases env.runUnzip <;> cases env.run7z <;>
    rcases hpy : env.pythonAvailable <;>
      simp [outcomeToOption, firstSome, hpy] <;>
    cases env.pyZip <;> simp [outcomeToOption, firstSome]

theorem sevenZCascade_eq_firstSome (env : ExtractEnv) :
    outcomeToOption (sevenZCascade env) = firstSome (attemptOrder env ".7z") := by
  simp only [sevenZCascade, attemptOrder, try_python_extraction]
  norm_num
  cases env.run7z <;>
    rcases hpy : env.pythonAvailable <;>
      simp [outcomeToOption, firstSome, hpy] <;>
    cases env.py7z <;> simp [outcomeToOption, firstSome]

theorem extractPhase1_eq_cascadeFor (env : ExtractEnv) (fileExt : String) :
    extractPhase1 env fileExt =
      (match cascadeFor env fileExt with
        | .ok fs => .finished true fs
        | .error m => .raised m) := by
  have hfb : ∀ c ty msg, formatBranch env c ty msg =
      (match c with
        | .ok fs => ExtractPhase.finished true fs
        | .error m => ExtractPhase.raised m) := by
    intro c ty msg
    simp [formatBranch, USE_COMMAND_LINE_TOOLS]
  unfold extractPhase1 cascadeFor
  split_ifs with h1 h2 h3 h4
  · simp [hfb]
  · simp [hfb]
  · simp [hfb]
  · rfl
  · exact absurd rfl h4

theorem cascadeFor_eq_firstSome (env : ExtractEnv) (fileExt : String) :
    outcomeToOption (cascadeFor env fileExt) = firstSome (attemptOrder env fileExt) := by
  by_cases h1 : fileExt = ".rar"
  · subst h1; simpa [cascadeFor] using rarCascade_eq_firstSome env
  · by_cases h2 : fileExt = ".zip"
    · subst h2; simpa [cascadeFor] using zipCascade_eq_firstSome env
    · by_cases h3 : fileExt = ".7z"
      · subst h3; simpa [cascadeFor] using sevenZCascade_eq_firstSome env
      · simp only [cascadeFor, attemptOrder, if_neg h1, if_neg h2, if_neg h3,
          genericFallback]
        cases env.run7z <;>
          rcases hpy : env.pythonAvailable <;>
            simp [outcomeToOption, firstSome, hpy] <;>
          cases env.pyPatool <;> simp [outcomeToOption, firstSome]

theorem extract_archive_of_firstSome_eq_some (env : ExtractEnv) (fileExt : String)
    (fs : List String) (h : firstSome (attemptOrder env fileExt) = some fs) :
    extract_archive env fileExt =
      (if fs.isEmpty then
        { success := false, hasExtractPath := true
          error := some "Extraction appeared to succeed but no files were found", files := [] }
      else { success := true, hasExtractPath := true, error := none, files := fs }) := by
  have hc : cascadeFor env fileExt = .ok fs := by
    have := cascadeFor_eq_firstSome env fileExt
    rw [h] at this
    cases hcc : cascadeFor env fileExt <;> rw [hcc] at this <;>
      simp [outcomeToOption] at this
    rw [this]
  unfold extract_archive
  rw [extractPhase1_eq_cascadeFor, hc]

theorem extract_archive_of_firstSome_eq_none (env : ExtractEnv) (fileExt : String)
    (h : firstSome (attemptOrder env fileExt) = none) :
    ∃ m, extract_archive env fileExt =
      { success := false, hasExtractPath := false, error := some m, files := [] } := by
  have hc : ∃ m, cascadeFor env fileExt = .error m := by
    have := cascadeFor_eq_firstSome env fileExt
    rw [h] at this
    cases hcc : cascadeFor env fileExt <;> rw [hcc] at this <;>
      simp [outcomeToOption] at this
    exact ⟨_, rfl⟩
  obtain ⟨m, hm⟩ := hc
  refine ⟨m, ?_⟩
  unfold extract_archive
  rw [extractPhase1_eq_cascadeFor, hm]

/-- C1.  As amended: `extract_archive` reports overall success exactly when
the first backend (in the fixed priority order) that reports success left a
non-empty file listing, in which case that listing is returned; so success
never comes with an empty file list.  (The claim's stronger reading — that a
success-with-zero-files backend is skipped and later backends are tried — is
refuted by `extract_archive_not_claimed_first_nonempty`.) -/
theorem extract_archive_stops_at_first_reported_success
    (env : ExtractEnv) (fileExt : String) :
    (extract_archive env fileExt).success = true ↔
      ∃ fs, firstSome (attemptOrder env fileExt) = some fs ∧ fs ≠ [] ∧
        (extract_archive env fileExt).files = fs := by
  rcases h : firstSome (attemptOrder env fileExt) with _ | fs
  · obtain ⟨m, hm⟩ := extract_archive_of_firstSome_eq_none env fileExt h
    rw [hm]
    simp
  · have ha := extract_archive_of_firstSome_eq_some env fileExt fs h
    by_cases he : fs.isEmpty
    · rw [if_pos he] at ha
      rw [ha]
      simp only [List.isEmpty_iff] at he
      subst he
      simp
    · rw [if_neg he] at ha
      rw [ha]
      simp only [List.isEmpty_iff] at he
      simp [he]

/-- C1, counterexample to the claim as stated: when the first successful
backend yields zero files, `extract_archive` reports overall failure instead
of moving on to the next backend (which here would have produced
`model.glb`); so it does not "stop at the first backend that both reports
success and yields a non-empty extracted-file listing". -/
theorem extract_archive_not_claimed_first_nonempty :
    (extract_archive envC1 ".rar").success = false ∧
    (extract_archive_claimed envC1 ".rar").success = true ∧
    (extract_archive_claimed envC1 ".rar").files = ["model.glb"] := by
  refine ⟨?_, ?_, ?_⟩ <;> rfl

/-- C4.  As amended: when no backend reports success, or the first
successful backend extracted zero files, `extract_archive` reports failure
with a non-null error message; the message is a fixed per-format summary (or
quotes only the last backend's error in the generic fallback) rather than a
concatenation of every attempted backend's error text — the latter reading
is refuted by `extract_archive_error_omits_backend_texts`. -/
theorem extract_archive_all_fail_reports_error (env : ExtractEnv) (fileExt : String)
    (h : firstSome (attemptOrder env fileExt) = none ∨
      firstSome (attemptOrder env fileExt) = some []) :
    (extract_archive env fileExt).success = false ∧
    (extract_archive env fileExt).error.isSome = true := by
  rcases h with h | h
  · obtain ⟨m, hm⟩ := extract_archive_of_firstSome_eq_none env fileExt h
    rw [hm]
    exact ⟨rfl, rfl⟩
  · have ha := extract_archive_of_firstSome_eq_some env fileExt [] h
    rw [ha]
    exact ⟨rfl, rfl⟩

/-- Witness for `extract_archive_all_fail_reports_error`: in `envC4` every
ZIP backend throws, and `extract_archive` indeed reports failure with an
error message set. -/
theorem extract_archive_all_fail_reports_error_witness :
    firstSome (attemptOrder envC4 ".zip") = none ∧
    ((extract_archive envC4 ".zip").success = false ∧
      (extract_archive envC4 ".zip").error.isSome = true) :=
  ⟨by decide, extract_archive_all_fail_reports_error envC4 ".zip" (Or.inl (by decide))⟩

/-- C4, counterexample to the claim as stated: when every RAR backend throws
(each with its own error text, see `envC4`), the reported error is the fixed
string `All RAR extraction methods failed`, which does not contain the
specific error text of the first attempted backend (`7z exploded`) — so the
error is not "the specific error text from every attempted backend
concatenated". -/
theorem extract_archive_error_omits_backend_texts :
    (extract_archive envC4 ".rar").error = some "All RAR extraction methods failed" ∧
    strContains "All RAR extraction methods failed" "7z exploded" = false := by
  exact ⟨rfl, by decide⟩

/-! ## Theorems: the 3D-model classifier -/

/-- C6.  `find_3d_model_files` returns exactly the entries whose extension
(the last component's suffix, lower-cased, hence case-insensitively) is in
the four-element allow-list, in input order, each packaged with its
(lower-cased) extension and basename.  The function is pure — it is a total
function of the path list alone. -/
theorem find_3d_model_files_is_allowlist_filter (fileList : List String) :
    find_3d_model_files fileList =
      (fileList.filter
          (fun p => model_extensions.contains ((pySuffix p).toLower))).map
        (fun p => { path := p, extension := (pySuffix p).toLower
                    filename := pyBasename p }) ∧
    (find_3d_model_files fileList).map (fun m => m.path) =
      fileList.filter (fun p => model_extensions.contains ((pySuffix p).toLower)) := by
  have hmain : find_3d_model_files fileList =
      (fileList.filter
          (fun p => model_extensions.contains ((pySuffix p).toLower))).map
        (fun p => { path := p, extension := (pySuffix p).toLower
                    filename := pyBasename p }) := by
    induction fileList with
    | nil => rfl
    | cons p rest ih =>
      by_cases h : model_extensions.contains ((pySuffix p).toLower)
      · simp only [find_3d_model_files, h, if_true, List.filter_cons, List.map_cons, ih]
      · simp only [find_3d_model_files, h, if_false, List.filter_cons, ih]
        simp [h]
  refine ⟨hmain, ?_⟩
  rw [hmain, List.map_map]
  have hcomp : ((fun m : ModelFileInfo => m.path) ∘
      fun p => ({ path := p, extension := (pySuffix p).toLower
                  filename := pyBasename p } : ModelFileInfo)) = fun p => p := rfl
  rw [hcomp]
  simp

/-! ## Theorems: base64 round-trip -/

theorem charSextet_sextetChar : ∀ n, n < 64 → charSextet (sextetChar n) = some n := by
  decide

theorem sextetChar_ne_pad : ∀ n, n < 64 → (sextetChar n == '=') = false := by
  decide

theorem b64ValidChar_sextetChar : ∀ n, n < 64 → b64ValidChar (sextetChar n) = true := by
  decide

theorem b64EncodeList_all_valid :
    ∀ bytes : List Nat, (∀ x ∈ bytes, x < 256) →
      ∀ c ∈ b64EncodeList bytes, b64ValidChar c = true
  | [], _, c, hc => by simp [b64EncodeList] at hc
  | [a], h, c, hc => by
    have ha : a < 256 := h a (by simp)
    simp only [b64EncodeList, List.mem_cons, List.mem_singleton] at hc
    rcases hc with rfl | rfl | rfl | rfl | hc
    · exact b64ValidChar_sextetChar _ (by omega)
    · exact b64ValidChar_sextetChar _ (by omega)
    · rfl
    · rfl
    · simp at hc
  | [a, b], h, c, hc => by
    have ha : a < 256 := h a (by simp)
    have hb : b < 256 := h b (by simp)
    simp only [b64EncodeList, List.mem_cons, List.mem_singleton] at hc
    rcases hc with rfl | rfl | rfl | rfl | hc
    · exact b64ValidChar_sextetChar _ (by omega)
    · exact b64ValidChar_sextetChar _ (by omega)
    · exact b64ValidChar_sextetChar _ (by omega)
    · rfl
    · simp at hc
  | a :: b :: cc :: rest, h, c, hc => by
    have ha : a < 256 := h a (by simp)
    have hb : b < 256 := h b (by simp)
    have hcc : cc < 256 := h cc (by simp)
    simp only [b64EncodeList, List.mem_cons] at hc
    rcases hc with rfl | rfl | rfl | rfl | hc
    · exact b64ValidChar_sextetChar _ (by omega)
    · exact b64ValidChar_sextetChar _ (by omega)
    · exact b64ValidChar_sextetChar _ (by omega)
    · exact b64ValidChar_sextetChar _ (by omega)
    · exact b64EncodeList_all_valid rest (fun x hx => h x (by simp [hx])) c hc

theorem b64DecodeGroups_b64EncodeList :
    ∀ bytes : List Nat, (∀ x ∈ bytes, x < 256) →
      b64DecodeGroups (b64EncodeList bytes) = some bytes
  | [], _ => rfl
  | [a], h => by
    have ha : a < 256 := h a (by simp)
    simp only [b64EncodeList, b64DecodeGroups,
      charSextet_sextetChar (a / 4) (by omega),
      charSextet_sextetChar (a % 4 * 16) (by omega)]
    simp only [Option.bind_eq_bind, Option.some_bind]
    norm_num
    omega
  | [a, b], h => by
    have ha : a < 256 := h a (by simp)
    have hb : b < 256 := h b (by simp)
    simp only [b64EncodeList, b64DecodeGroups,
      charSextet_sextetChar (a / 4) (by omega),
      charSextet_sextetChar (a % 4 * 16 + b / 16) (by omega),
      charSextet_sextetChar (b % 16 * 4) (by omega),
      sextetChar_ne_pad (b % 16 * 4) (by omega)]
    simp only [Option.bind_eq_bind, Option.some_bind]
    norm_num
    constructor
    · omega
    · omega
  | a :: b :: c :: rest, h => by
    have ha : a < 256 := h a (by simp)
    have hb : b < 256 := h b (by simp)
    have hc : c < 256 := h c (by simp)
    have ih := b64DecodeGroups_b64EncodeList rest (fun x hx => h x (by simp [hx]))
    simp only [b64EncodeList, b64DecodeGroups,
      charSextet_sextetChar (a / 4) (by omega),
      charSextet_sextetChar (a % 4 * 16 + b / 16) (by omega),
      charSextet_sextetChar (b % 16 * 4 + c / 64) (by omega),
      charSextet_sextetChar (c % 64) (by omega),
      sextetChar_ne_pad (b % 16 * 4 + c / 64) (by omega),
      sextetChar_ne_pad (c % 64) (by omega), ih]
    simp only [Option.bind_eq_bind, Option.some_bind]
    norm_num
    refine ⟨by omega, by omega, by omega⟩

/-- Base64 round-trip: decoding the encoding of any byte list returns it
unchanged. -/
theorem b64decode_b64encode (bytes : List Nat) (h : ∀ x ∈ bytes, x < 256) :
    b64decode (b64encode bytes) = some bytes := by
  show b64DecodeGroups ((b64EncodeList bytes).filter b64ValidChar) = some bytes
  rw [List.filter_eq_self.mpr (b64EncodeList_all_valid bytes h)]
  exact b64DecodeGroups_b64EncodeList bytes h

theorem b64encode_ne_empty (bytes : List Nat) (h : bytes ≠ []) :
    b64encode bytes ≠ "" := by
  match bytes with
  | [] => exact absurd rfl h
  | [a] =>
    intro hcon
    have hdata : b64EncodeList [a] = [] := congrArg String.data hcon
    simp [b64EncodeList] at hdata
  | [a, b] =>
    intro hcon
    have hdata : b64EncodeList [a, b] = [] := congrArg String.data hcon
    simp [b64EncodeList] at hdata
  | a :: b :: c :: rest =>
    intro hcon
    have hdata : b64EncodeList (a :: b :: c :: rest) = [] := congrArg String.data hcon
    simp [b64EncodeList] at hdata

/-! ## Theorems: model storage -/

theorem find?_append_none {α : Type} (p : α → Bool) (l l' : List α)
    (h : l.find? p = none) : (l ++ l').find? p = l'.find? p := by
  induction l with
  | nil => rfl
  | cons a as ih =>
    cases hpa : p a with
    | true =>
      rw [List.find?_cons_of_pos _ hpa] at h
      exact absurd h (by simp)
    | false =>
      have hpa' : ¬ p a = true := by simp [hpa]
      rw [List.find?_cons_of_neg _ hpa'] at h
      rw [List.cons_append, List.find?_cons_of_neg _ hpa']
      exact ih h

/-- The fault-free run of `save_model_to_storage`: the side-table insert and
the models insert both succeed, so the commit appends one row to each table
and the locator path is returned. -/
theorem save_model_happy (db : DB) (env : SaveEnv) (fd : FileData)
    (hok : env.largeInsertOk = true) (hins : env.modelsInsert = InsertOutcome.ok)
    (hc : fd.content ≠ "") :
    save_model_to_storage db env fd =
      (some ("/models/" ++ env.model_id ++ "/" ++ resolvedFilename fd),
        savedDB db env fd) := by
  unfold save_model_to_storage savedDB savedRow savedUrl
  rw [if_neg hc]
  by_cases hsz : 1024 * 1024 < contentSize fd <;>
    simp [hok, hins, hsz, String.append_assoc]

/-- C2.  For a fault-free write: the locator is returned; the content is
always retrievable through the side-table path; when the size is at most
1 MiB the models row also stores the content inline (retrievable through the
primary-table path as well), and when the size exceeds 1 MiB the models row
is metadata-only (the inline path yields a row with no content). -/
theorem save_model_size_threshold (db : DB) (env : SaveEnv) (fd : FileData)
    (hok : env.largeInsertOk = true) (hins : env.modelsInsert = InsertOutcome.ok)
    (hc : fd.content ≠ "")
    (hfreshLarge : ∀ p ∈ db.large_model_content, p.1 ≠ env.model_id)
    (hfreshUrl : ∀ r ∈ db.models, r.model_url ≠ savedUrl env fd) :
    (save_model_to_storage db env fd).1 =
      some ("/models/" ++ env.model_id ++ "/" ++ resolvedFilename fd) ∧
    sideLookup (save_model_to_storage db env fd).2 env.model_id = some fd.content ∧
    (contentSize fd ≤ 1024 * 1024 →
      inlineLookupByUrl (save_model_to_storage db env fd).2 (savedUrl env fd) =
        some (some fd.content)) ∧
    (1024 * 1024 < contentSize fd →
      inlineLookupByUrl (save_model_to_storage db env fd).2 (savedUrl env fd) =
        some none) := by
  rw [save_model_happy db env fd hok hins hc]
  have hside : sideLookup (savedDB db env fd) env.model_id = some fd.content := by
    unfold sideLookup savedDB
    rw [find?_append_none _ _ _
      (List.find?_eq_none.mpr (fun p hp => by simp [hfreshLarge p hp]))]
    simp
  have hinline : (savedDB db env fd).models.find?
      (fun r => r.model_url == savedUrl env fd) = some (savedRow env fd) := by
    unfold savedDB
    rw [find?_append_none _ _ _
      (List.find?_eq_none.mpr (fun r hr => by simp [hfreshUrl r hr]))]
    simp [savedRow]
  refine ⟨rfl, hside, ?_, ?_⟩
  · intro hle
    unfold inlineLookupByUrl
    rw [hinline]
    unfold savedRow
    simp [Nat.not_lt.mpr hle]
  · intro hgt
    unfold inlineLookupByUrl
    rw [hinline]
    unfold savedRow
    simp [hgt]

/-- Witness for `save_model_size_threshold`: a concrete fault-free small
write into the empty database. -/
theorem save_model_size_threshold_witness :
    fdSmall.content ≠ "" ∧ contentSize fdSmall ≤ 1024 * 1024 ∧
    ((save_model_to_storage dbEmpty envHappy fdSmall).1 =
        some ("/models/" ++ envHappy.model_id ++ "/" ++ resolvedFilename fdSmall) ∧
      sideLookup (save_model_to_storage dbEmpty envHappy fdSmall).2 envHappy.model_id =
        some fdSmall.content ∧
      inlineLookupByUrl (save_model_to_storage dbEmpty envHappy fdSmall).2
        (savedUrl envHappy fdSmall) = some (some fdSmall.content)) := by
  have h := save_model_size_threshold dbEmpty envHappy fdSmall rfl rfl (by decide)
    (by simp [dbEmpty]) (by simp [dbEmpty])
  exact ⟨by decide, by decide, h.1, h.2.1, h.2.2.1 (by decide)⟩

/-- C5.  As amended: the write sequence is one transaction — when the
models-table insert raises anything other than the recovered column-missing
error (or the reduced-column retry itself raises), everything is rolled back
(the database is exactly as before) and `None` is returned.  The claim's
universal reading — that *any* exception during the writes causes rollback
and a `None` return — is refuted by
`save_model_commits_despite_large_insert_exception`: the side-table insert's
exception is caught and suppressed. -/
theorem save_model_rolls_back_on_models_insert_failure
    (db : DB) (env : SaveEnv) (fd : FileData)
    (h : env.modelsInsert = InsertOutcome.otherError ∨
      (env.modelsInsert = InsertOutcome.columnMissing ∧ env.modelsRetryOk = false)) :
    save_model_to_storage db env fd = (none, db) := by
  unfold save_model_to_storage
  by_cases hc : fd.content = ""
  · rw [if_pos hc]
  · rw [if_neg hc]
    rcases h with h | ⟨h, hr⟩
    · by_cases hsz : 1024 * 1024 < contentSize fd <;> simp [h, hsz]
    · by_cases hsz : 1024 * 1024 < contentSize fd <;> simp [h, hr, hsz]

/-- Witness for `save_model_rolls_back_on_models_insert_failure`. -/
theorem save_model_rolls_back_witness :
    envModelsFails.modelsInsert = InsertOutcome.otherError ∧
    save_model_to_storage dbEmpty envModelsFails fdSmall = (none, dbEmpty) :=
  ⟨rfl, save_model_rolls_back_on_models_insert_failure dbEmpty envModelsFails fdSmall
    (Or.inl rfl)⟩

/-- C5, counterexample to the claim as stated: the `INSERT INTO
large_model_content` raising (modelled by `envLargeFails`) is an exception
during the write sequence, yet nothing is rolled back — the function
commits the models row and returns a locator instead of `None`. -/
theorem save_model_commits_despite_large_insert_exception :
    envLargeFails.largeInsertOk = false ∧
    (save_model_to_storage dbEmpty envLargeFails fdSmall).1.isSome = true ∧
    (save_model_to_storage dbEmpty envLargeFails fdSmall).2 ≠ dbEmpty := by
  refine ⟨rfl, rfl, ?_⟩
  decide

/-- C10.  With the side-table insert failing (exception suppressed) and a
declared content size above 1 MiB, `save_model_to_storage` still returns a
non-`None` locator although the content is persisted nowhere: the side
table is unchanged (here: empty) and the committed models row carries no
inline content. -/
theorem save_model_locator_without_persisted_content :
    envLargeFails.largeInsertOk = false ∧
    1024 * 1024 < contentSize fdBig ∧
    (save_model_to_storage dbEmpty envLargeFails fdBig).1.isSome = true ∧
    (save_model_to_storage dbEmpty envLargeFails fdBig).2.large_model_content = [] ∧
    (∀ r ∈ (save_model_to_storage dbEmpty envLargeFails fdBig).2.models,
      r.content = none) := by
  refine ⟨rfl, by decide, rfl, rfl, ?_⟩
  decide

/-! ## Theorems: model retrieval -/

/-- A string that is exactly one canonical UUID extracts to itself. -/
theorem extract_uuid_of_isUuid (s : String) (h : isUuid s = true) :
    extract_uuid_from_text s = some s := by
  have hat : uuidAt s.toList = true := ((Bool.and_eq_true _ _).mp h).1
  have hlen : s.toList.length = 36 := by
    have h2 := ((Bool.and_eq_true _ _).mp h).2
    simpa using h2
  have hne : s ≠ "" := by
    intro hcon
    subst hcon
    simp at hlen
  unfold extract_uuid_from_text
  rw [if_neg hne]
  have hfind : findUuidSub s.toList = some (s.toList.take 36) := by
    cases hcs : s.toList with
    | nil => rw [hcs] at hlen; simp at hlen
    | cons c rest =>
      rw [hcs] at hat
      rw [← hcs]
      rw [hcs]
      simp [findUuidSub, hat]
  rw [hfind, List.take_of_length_le (le_of_eq hlen)]
  rfl

theorem locatedContent_of_uuid_entry (db : DB) (u ct : String)
    (hu : extract_uuid_from_text u = some u)
    (hct : ct ≠ "")
    (hfind : db.large_model_content.find? (fun p => p.1 == u) = some (u, ct)) :
    locatedContent db u = some ct := by
  unfold locatedContent servedUuid
  simp only [hu, hfind]
  simp [hct]

/-- C3.  A model written fault-free and read back through `serve_model` with
a locator fragment equal to the generated identifier yields the original
uploaded bytes unchanged (base64 decode inverts the stored encoding), with
the content type inferred from the filename. -/
theorem save_then_serve_roundtrip (db : DB) (env : SaveEnv) (fd : FileData)
    (bytes : List Nat) (filename : String)
    (hok : env.largeInsertOk = true) (hins : env.modelsInsert = InsertOutcome.ok)
    (hbytes : ∀ x ∈ bytes, x < 256) (hne : bytes ≠ [])
    (hcontent : fd.content = b64encode bytes)
    (huuid : isUuid env.model_id = true)
    (hfresh : ∀ p ∈ db.large_model_content, p.1 ≠ env.model_id) :
    serve_model (save_model_to_storage db env fd).2 env.model_id filename =
      ServeResult.ok bytes (get_content_type_from_extension filename) := by
  have hcne : fd.content ≠ "" := by
    rw [hcontent]
    exact b64encode_ne_empty bytes hne
  have h2 : (save_model_to_storage db env fd).2 = savedDB db env fd := by
    rw [save_model_happy db env fd hok hins hcne]
  rw [h2]
  have hfind : (savedDB db env fd).large_model_content.find?
      (fun p => p.1 == env.model_id) = some (env.model_id, fd.content) := by
    unfold savedDB
    rw [find?_append_none _ _ _
      (List.find?_eq_none.mpr (fun p hp => by simp [hfresh p hp]))]
    simp
  have hloc : locatedContent (savedDB db env fd) env.model_id = some fd.content :=
    locatedContent_of_uuid_entry (savedDB db env fd) env.model_id fd.content
      (extract_uuid_of_isUuid env.model_id huuid) hcne hfind
  rw [hcontent] at hloc
  unfold serve_model
  simp [hloc, b64decode_b64encode bytes hbytes]

/-- Witness for `save_then_serve_roundtrip`: the bytes `A` `B` `C` written
into the empty database come back unchanged. -/
theorem save_then_serve_roundtrip_witness :
    ([65, 66, 67] ≠ ([] : List Nat)) ∧ isUuid envHappy.model_id = true ∧
    serve_model (save_model_to_storage dbEmpty envHappy fdSmall).2
        envHappy.model_id "m.glb" =
      ServeResult.ok [65, 66, 67] (get_content_type_from_extension "m.glb") :=
  ⟨by decide, by decide,
    save_then_serve_roundtrip dbEmpty envHappy fdSmall [65, 66, 67] "m.glb"
      rfl rfl (by decide) (by decide) rfl (by decide) (by simp [dbEmpty])⟩

theorem locatedContent_empty (db : DB) (model_id : String)
    (h : db.large_model_content = []) : locatedContent db model_id = none := by
  unfold locatedContent
  cases hs : servedUuid db model_id <;> simp [h]

/-- C7.  `serve_model` reports "not found" whenever no content is located
(in particular for any fragment when the side table is empty), reports a
decode error when the located content is not valid base64, and otherwise
returns the decoded bytes with a content type derived purely from the
filename's extension. -/
theorem serve_model_error_reporting (db : DB) (model_id filename : String) :
    (db.large_model_content = [] →
      serve_model db model_id filename =
        ServeResult.notFound (urlMatch db model_id).isSome) ∧
    (locatedContent db model_id = none →
      serve_model db model_id filename =
        ServeResult.notFound (urlMatch db model_id).isSome) ∧
    (∀ c, locatedContent db model_id = some c →
      (b64decode c = none →
        serve_model db model_id filename = ServeResult.decodeError) ∧
      (∀ bytes, b64decode c = some bytes →
        serve_model db model_id filename =
          ServeResult.ok bytes (get_content_type_from_extension filename))) := by
  refine ⟨?_, ?_, ?_⟩
  · intro h
    unfold serve_model
    rw [locatedContent_empty db model_id h]
  · intro h
    unfold serve_model
    rw [h]
  · intro c hc
    constructor
    · intro hdec
      unfold serve_model
      simp only [hc, hdec]
    · intro bytes hdec
      unfold serve_model
      simp only [hc, hdec]

/-- Witness for `serve_model_error_reporting`: an unknown fragment against
the empty database is a 404. -/
theorem serve_model_error_reporting_witness :
    dbEmpty.large_model_content = [] ∧
    serve_model dbEmpty "nope" "f.glb" = ServeResult.notFound false :=
  ⟨rfl, (serve_model_error_reporting dbEmpty "nope" "f.glb").1 rfl⟩

theorem urlMatch_erase (db : DB) (model_id : String) :
    urlMatch (eraseInlineContent db) model_id =
      (urlMatch db model_id).map (fun r => { r with content := none }) := by
  unfold urlMatch eraseInlineContent
  rw [List.find?_map]
  rfl

theorem servedUuid_erase (db : DB) (model_id : String) :
    servedUuid (eraseInlineContent db) model_id = servedUuid db model_id := by
  unfold servedUuid
  rw [urlMatch_erase db model_id]
  cases extract_uuid_from_text model_id <;> cases urlMatch db model_id <;> simp

theorem locatedContent_erase (db : DB) (model_id : String) :
    locatedContent (eraseInlineContent db) model_id = locatedContent db model_id := by
  unfold locatedContent
  rw [servedUuid_erase db model_id]
  have he : (eraseInlineContent db).large_model_content = db.large_model_content := rfl
  rw [he]

theorem locatedContent_mem (db : DB) (model_id c : String)
    (h : locatedContent db model_id = some c) :
    ∃ p ∈ db.large_model_content, p.2 = c := by
  unfold locatedContent at h
  cases hs : servedUuid db model_id with
  | none =>
    simp only [hs] at h
    cases hf : (db.large_model_content.take 50).find? (fun p => p.2 != "") with
    | none => simp only [hf] at h; simp at h
    | some p =>
      simp only [hf] at h
      simp at h
      exact ⟨p, List.take_subset _ _ (List.mem_of_find?_eq_some hf), h⟩
  | some u =>
    simp only [hs] at h
    cases hf : db.large_model_content.find? (fun p => p.1 == u) with
    | none => simp only [hf] at h; simp at h
    | some p =>
      simp only [hf] at h
      by_cases hpe : p.2 == ""
      · rw [if_pos hpe] at h
        simp at h
      · rw [if_neg hpe] at h
        simp at h
        exact ⟨p, List.mem_of_find?_eq_some hf, h⟩

/-- C9.  `serve_model` never reads the `models.content` column: its result
is unchanged when every inline content is blanked out, and every successful
response decodes content found in the `large_model_content` side table. -/
theorem serve_model_reads_only_side_table (db : DB) (model_id filename : String) :
    serve_model (eraseInlineContent db) model_id filename =
      serve_model db model_id filename ∧
    (∀ bytes contentType,
      serve_model db model_id filename = ServeResult.ok bytes contentType →
      ∃ p ∈ db.large_model_content, b64decode p.2 = some bytes) := by
  constructor
  · unfold serve_model
    rw [locatedContent_erase db model_id, urlMatch_erase db model_id]
    cases locatedContent db model_id <;> cases urlMatch db model_id <;> simp
  · intro bytes contentType hok
    unfold serve_model at hok
    cases hl : locatedContent db model_id with
    | none => simp only [hl] at hok; simp at hok
    | some c =>
      simp only [hl] at hok
      cases hd : b64decode c with
      | none => simp only [hd] at hok; simp at hok
      | some bs =>
        simp only [hd] at hok
        have hbs : bs = bytes := by
          cases hok
          rfl
        subst hbs
        obtain ⟨p, hp, hpc⟩ := locatedContent_mem db model_id c hl
        exact ⟨p, hp, by rw [hpc]; exact hd⟩

/-- Witness for `serve_model_reads_only_side_table`: a successful response
served from `dbSide` decodes the side-table entry. -/
theorem serve_model_reads_only_side_table_witness :
    serve_model dbSide "nope" "f.glb" =
      ServeResult.ok [65, 66, 67] (get_content_type_from_extension "f.glb") ∧
    ∃ p ∈ dbSide.large_model_content, b64decode p.2 = some [65, 66, 67] := by
  have hserve : serve_model dbSide "nope" "f.glb" =
      ServeResult.ok [65, 66, 67] (get_content_type_from_extension "f.glb") := by
    rfl
  exact ⟨hserve,
    (serve_model_reads_only_side_table dbSide "nope" "f.glb").2 [65, 66, 67] _ hserve⟩

/-! ## Theorems: the webhook circuit-breaker guard -/

/-- C8.  While the emergency flag is on, every file-bearing event is
rejected with the fixed notification and no download-backend or storage
effect occurs (the state is unchanged); and the only event that turns the
flag off is the `/enable` operator command. -/
theorem emergency_flag_blocks_file_events (s : BotState) (now : Nat) (e : TgEvent)
    (h : s.ignoreAllArchives = true) :
    (∀ fileId, e = TgEvent.fileEvent fileId →
      webhookStep s now e =
        (s, [WebhookEffect.notify
          "Processing is currently disabled (circuit breaker active)."])) ∧
    ((webhookStep s now e).1.ignoreAllArchives = false →
      e = TgEvent.command "/enable") := by
  constructor
  · rintro fileId rfl
    simp [webhookStep, h]
  · intro hoff
    cases e with
    | fileEvent fileId =>
      simp [webhookStep, h] at hoff
    | command t =>
      by_cases hen : t = "/enable"
      · subst hen
        rfl
      · exfalso
        by_cases h911 : t = "/911"
        · subst h911
          simp [webhookStep] at hoff
        · by_cases hdis : t = "/disable"
          · subst hdis
            simp [webhookStep] at hoff
          · simp only [webhookStep] at hoff
            rw [if_neg h911, if_neg hdis, if_neg hen] at hoff
            rw [h] at hoff
            cases hoff

/-- Witness for `emergency_flag_blocks_file_events`: with the flag on, a
concrete file event is rejected with the fixed notification. -/
theorem emergency_flag_blocks_file_events_witness :
    botOn.ignoreAllArchives = true ∧
    webhookStep botOn 5 (TgEvent.fileEvent "f1") =
      (botOn, [WebhookEffect.notify
        "Processing is currently disabled (circuit breaker active)."]) :=
  ⟨rfl, (emergency_flag_blocks_file_events botOn 5 (TgEvent.fileEvent "f1") rfl).1
    "f1" rfl⟩

end Axiscore
